import Mathlib

/-!
Shallow embedding of the TicketChain Solana program
(src/backend/program/programs/ticketchain/src/lib.rs).

The program tracks events, mints one non-fungible ticket per primary sale,
and mediates peer-to-peer resale through an escrow/listing protocol with a
40/40/20 revenue split.

Modelling conventions:
* Solana `Pubkey` values are opaque identities compared only for equality;
  they are modelled as `Nat`.
* The machine integers `u32`/`u64`/`i64` are modelled as `Nat`/`Int`, with
  range hypotheses (`< 2^32`, `< 2^64`) stated where the width matters and
  checked arithmetic made explicit (`checked_add_u32`).
* A Solana transaction is all-or-nothing: an instruction that returns an
  error leaves every account unchanged.  Each instruction is therefore a
  function returning `Except`, where `Except.error` means the whole
  transaction aborted with no side effect and `Except.ok` carries the new
  account state together with the list of lamport transfers performed.
* Anchor account-constraint failures that occur before the instruction body
  runs (PDA `init` collisions, `constraint = ...` clauses, missing accounts)
  abort the transaction exactly like an explicit `require!`; they are fused
  into the same `Except` result, in the order Anchor checks them.
-/

/-- Solana public keys, opaque to the program beyond equality comparison. -/
abbrev Pubkey := Nat

/-- The `u32` modulus. -/
def U32_MOD : Nat := 2 ^ 32

/-- The `u64` modulus. -/
def U64_MOD : Nat := 2 ^ 64

/-- Rust `u32::checked_add`: `some (a + b)` unless the sum would wrap. -/
def checked_add_u32 (a b : Nat) : Option Nat :=
  if a + b < U32_MOD then some (a + b) else none

/-- The program's error enum (lib.rs `ErrorCode`, lines 502-522). -/
inductive ErrorCode
  | TitleTooLong
  | VenueTooLong
  | TierNameTooLong
  | InvalidSupply
  | SoldOut
  | Overflow
  | InvalidPrice
  | InvalidSeller
  | InvalidOrganizer
  deriving DecidableEq

/-- Modelled from the spec: the runtime-level failure kinds that lib.rs
relies on but does not itself define (they come from Anchor account
validation and the token program, whose code is not under src/).  `code`
wraps the program's own `ErrorCode`.  Per spec §6-§7, the Durable Keyed
Storage collaborator fails with `AlreadyExists` when creating a record
whose derived key already exists and with `NotFound` when a referenced
record is absent; the Value Transfer Collaborator fails (`AssetNotHeld`)
when the source holding lacks the 1-unit ticket asset;
`ConstraintViolated` is an account constraint mismatch with no named spec
error. -/
inductive TxError
  | code (e : ErrorCode)
  | AlreadyExists
  | NotFound
  | ConstraintViolated
  | AssetNotHeld
  deriving DecidableEq

/-- The on-chain `Event` account (lib.rs lines 268-279).  `supply` and
`sold` are `u32`, `price_lamports` and `nonce` are `u64`, `date_ts` is
`i64`. -/
structure Event where
  organizer : Pubkey
  nonce : Nat
  title : String
  venue : String
  date_ts : Int
  tier_name : String
  price_lamports : Nat
  supply : Nat
  sold : Nat
  deriving DecidableEq

/-- The on-chain `Listing` account (lib.rs lines 281-288). -/
structure Listing where
  seller : Pubkey
  event : Pubkey
  ticket_mint : Pubkey
  price_lamports : Nat
  bump : Nat
  deriving DecidableEq

/-- One native-currency (lamport) transfer executed by an instruction. -/
structure Transfer where
  src : Pubkey
  dst : Pubkey
  amount : Nat
  deriving DecidableEq

/-- Instruction `create_event` (lib.rs lines 19-46): validates the bounded-length text
fields and `supply > 0` with `require!`, in source order, then initialises
the event account with `sold = 0`.  Rust's `String::len` counts bytes, hence
`String.utf8ByteSize`. -/
def create_event (organizer : Pubkey) (nonce : Nat) (title venue : String)
    (date_ts : Int) (tier_name : String) (price_lamports : Nat)
    (supply : Nat) : Except ErrorCode Event :=
  if title.utf8ByteSize ≤ 64 then
    if venue.utf8ByteSize ≤ 64 then
      if tier_name.utf8ByteSize ≤ 32 then
        if 0 < supply then
          .ok { organizer := organizer, nonce := nonce, title := title,
                venue := venue, date_ts := date_ts, tier_name := tier_name,
                price_lamports := price_lamports, supply := supply,
                sold := 0 }
        else .error .InvalidSupply
      else .error .TierNameTooLong
    else .error .VenueTooLong
  else .error .TitleTooLong

/-- Little-endian byte encoding of a `u32` (`u32::to_le_bytes`), used as a
PDA seed component for the ticket authority and ticket mint. -/
def u32_le_bytes (n : Nat) : List Nat :=
  [n % 256, n / 256 % 256, n / 65536 % 256, n / 16777216 % 256]

/-- Seed tuple of the ticket-mint PDA (lib.rs lines 331-339):
`[b"ticket_mint", event.key(), event.sold.to_le_bytes()]`.  PDA derivation
is deterministic in the seeds, so the derived mint identity is modelled by
the seed tuple itself. -/
def ticket_mint_seeds (event_key : Pubkey) (seq : Nat) :
    String × Pubkey × List Nat :=
  ("ticket_mint", event_key, u32_le_bytes seq)

/-- Result of a successful `buy_ticket`: the updated event account, the
sequence number used for the ticket-mint PDA seeds (the pre-increment value
of `sold`), and the lamport transfers performed. -/
structure TicketSale where
  event : Event
  seq : Nat
  pays : List Transfer
  deriving DecidableEq

/-- Instruction `buy_ticket` (lib.rs lines 49-97 and the `BuyTicket` accounts struct,
lines 310-352): requires `event.sold < event.supply` (`SoldOut`, checked
both by the account constraint and the handler's `require!`), transfers
`event.price_lamports` from buyer to organizer (the `organizer` account is
constrained to `event.organizer` by `address = event.organizer`), mints one
ticket at the PDA seeded by the pre-increment `sold`, then advances `sold`
with `checked_add(1)` (`Overflow` if it would wrap). -/
def buy_ticket (buyer : Pubkey) (e : Event) : Except ErrorCode TicketSale :=
  if e.sold < e.supply then
    match checked_add_u32 e.sold 1 with
    | none => .error .Overflow
    | some sold' =>
        .ok { event := { e with sold := sold' },
              seq := e.sold,
              pays := [{ src := buyer, dst := e.organizer,
                         amount := e.price_lamports }] }
  else .error .SoldOut

/-- Share `artist_share = price * 40 / 100` (lib.rs line 133), integer floor
division.  `price` is a `u64`.  Modelled from the spec for the build profile
absent from src/ (the workspace Cargo.toml fixing Rust's overflow behavior):
the spec states the split is exact floor division with the three shares
summing to `price` for every `price_lamports ≥ 1`, i.e. an overflowing
`price * 40` aborts the transaction rather than wrapping, so every
successful call computes the mathematical `price * 40 / 100`. -/
def artist_share_of (price : Nat) : Nat := price * 40 / 100

/-- Share `seller_share = price * 40 / 100` (lib.rs line 134). -/
def seller_share_of (price : Nat) : Nat := price * 40 / 100

/-- Share `platform_share = price - artist_share - seller_share` (lib.rs line
135): the 20% remainder, absorbing the rounding loss. -/
def platform_share_of (price : Nat) : Nat :=
  price - artist_share_of price - seller_share_of price

/-- Who currently holds the 1-unit ticket asset for a given ticket mint:
either some party's associated token account, or the escrow token account
whose authority is the listing PDA (lib.rs lines 379-387). -/
inductive AssetHolder
  | wallet (owner : Pubkey)
  | escrow
  deriving DecidableEq

/-- Resale-market state for one ticket mint: who holds the asset, and the
listing record at the PDA derived from `[b"listing", ticket_mint]`, if that
account currently exists (at most one, by deterministic addressing). -/
structure ResaleState where
  holder : AssetHolder
  listing : Option Listing
  deriving DecidableEq

/-- Instruction `list_for_resale` (lib.rs lines 101-127 and the `ListForResale`
accounts struct, lines 354-392).  Account validation first: the listing PDA
is `init`, so creation fails with `AlreadyExists` if a listing for this
ticket mint already exists; the seller's associated token account must hold
the asset, else the 1-unit `transfer_checked` into escrow fails
(`AssetNotHeld`).  The handler requires `price_lamports > 0`
(`InvalidPrice`), moves the asset into escrow, and writes the listing
record.  Any failure aborts the whole transaction: the asset stays where it
was and no listing account exists. -/
def list_for_resale (s : ResaleState) (seller : Pubkey)
    (event_key ticket_mint : Pubkey) (price_lamports : Nat) (bump : Nat) :
    Except TxError ResaleState :=
  match s.listing with
  | some _ => .error .AlreadyExists
  | none =>
      if s.holder = .wallet seller then
        if 0 < price_lamports then
          .ok { holder := .escrow,
                listing := some { seller := seller, event := event_key,
                                  ticket_mint := ticket_mint,
                                  price_lamports := price_lamports,
                                  bump := bump } }
        else .error (.code .InvalidPrice)
      else .error .AssetNotHeld

/-- Instruction `buy_resale` (lib.rs lines 131-212 and the `BuyResale` accounts struct,
lines 394-445).  Account validation: the listing account at the PDA for
this ticket mint must exist (`NotFound` otherwise), the supplied `seller`
must equal `listing.seller` (`InvalidSeller`), the supplied `organizer`
must equal `event.organizer` (`InvalidOrganizer`), the `platform` account
is unconstrained, and `listing.event == event.key()`,
`listing.ticket_mint == ticket_mint` are raw constraints
(`ConstraintViolated`); the escrow token account must hold the asset.  The
handler splits `listing.price_lamports` 40/40/20 between organizer, seller
and the caller-supplied platform, moves the asset from escrow to the buyer,
closes the escrow token account, and closes the listing (`close = seller`). -/
def buy_resale (s : ResaleState) (buyer seller organizer platform : Pubkey)
    (event : Event) (event_key ticket_mint : Pubkey) :
    Except TxError (ResaleState × List Transfer) :=
  match s.listing with
  | none => .error .NotFound
  | some l =>
      if seller = l.seller then
        if organizer = event.organizer then
          if l.event = event_key ∧ l.ticket_mint = ticket_mint then
            if s.holder = .escrow then
              .ok ({ holder := .wallet buyer, listing := none },
                   [{ src := buyer, dst := organizer,
                      amount := artist_share_of l.price_lamports },
                    { src := buyer, dst := seller,
                      amount := seller_share_of l.price_lamports },
                    { src := buyer, dst := platform,
                      amount := platform_share_of l.price_lamports }])
            else .error .AssetNotHeld
          else .error .ConstraintViolated
        else .error (.code .InvalidOrganizer)
      else .error (.code .InvalidSeller)

/-- Instruction `cancel_listing` (lib.rs lines 215-255 and the `CancelListing`
accounts struct, lines 447-483).  The listing account at the PDA for this
ticket mint must exist (`NotFound` otherwise) and its `seller` field must
equal the signing caller (`InvalidSeller`); the escrow token account must
hold the asset.  On success the asset returns to the seller, the escrow
token account is closed, and the listing is closed (`close = seller`). -/
def cancel_listing (s : ResaleState) (caller : Pubkey) :
    Except TxError ResaleState :=
  match s.listing with
  | none => .error .NotFound
  | some l =>
      if l.seller = caller then
        if s.holder = .escrow then
          .ok { holder := .wallet l.seller, listing := none }
        else .error .AssetNotHeld
      else .error (.code .InvalidSeller)

/-- Instruction `close_event` (lib.rs lines 259-263 and the `CloseEvent` accounts
struct, lines 485-498).  The only check is the account constraint
`event.organizer == organizer.key() @ ErrorCode::InvalidOrganizer`; the
handler body is empty and `close = organizer` destroys the event account,
returning its rent to the organizer.  No check on `sold` is performed. -/
def close_event (e : Event) (caller : Pubkey) : Except TxError Unit :=
  if e.organizer = caller then .ok ()
  else .error (.code .InvalidOrganizer)

/-- Transactional result: the state after running an instruction whose
outcome is `r`, starting from `s`.  An error aborts the transaction, so the
state is unchanged. -/
def tx_result (s : ResaleState) (r : Except TxError ResaleState) :
    ResaleState :=
  match r with
  | .ok s' => s'
  | .error _ => s

/-- The only instruction that mutates an existing `Event` account is
`buy_ticket` (`create_event` initialises it; `close_event` destroys it;
the resale instructions only read it).  `EventStep e e'` holds when one
successful `buy_ticket` takes the account from `e` to `e'`. -/
inductive EventStep : Event → Event → Prop
  | buy (buyer : Pubkey) (e : Event) (r : TicketSale)
      (h : buy_ticket buyer e = .ok r) : EventStep e r.event

/-- Iterate `buy_ticket` `n` times from event state `e` (each step by some
fixed buyer; the buyer does not affect the event account), propagating the
first error. -/
def buys (buyer : Pubkey) (e : Event) : Nat → Except ErrorCode Event
  | 0 => .ok e
  | n + 1 =>
      match buys buyer e n with
      | .ok e' => (buy_ticket buyer e').map TicketSale.event
      | .error err => .error err

/-- Sample event for concrete witnesses: the spec §8 scenario event with
`supply = 2` and `price = 100`, organized by party `1`. -/
def sample_event : Event :=
  { organizer := 1, nonce := 0, title := "t", venue := "v", date_ts := 0,
    tier_name := "g", price_lamports := 100, supply := 2, sold := 0 }

/-- The sample event after one ticket sale. -/
def sample_event_sold1 : Event := { sample_event with sold := 1 }

/-- Sample listing for concrete witnesses: party `2` resells the ticket
with mint key `11` of the event with key `10` for 7 lamports. -/
def sample_listing : Listing :=
  { seller := 2, event := 10, ticket_mint := 11, price_lamports := 7,
    bump := 0 }

/-- Sample resale-market state in which the sample listing is open and the
ticket asset is in escrow. -/
def sample_listed : ResaleState :=
  { holder := .escrow, listing := some sample_listing }

-- ── Helper lemmas ────────────────────────────────────────────────────

theorem create_event_ok_spec (o : Pubkey) (n : Nat) (t v : String) (d : Int)
    (tn : String) (p sup : Nat) (e0 : Event)
    (h : create_event o n t v d tn p sup = .ok e0) :
    e0.organizer = o ∧ e0.supply = sup ∧ e0.sold = 0 ∧ 0 < sup := by
  unfold create_event at h
  split_ifs at h with h1 h2 h3 h4 <;> cases h
  exact ⟨rfl, rfl, rfl, h4⟩

theorem buy_ticket_succeeds (buyer : Pubkey) (e : Event)
    (h1 : e.sold < e.supply) (h2 : e.sold + 1 < U32_MOD) :
    buy_ticket buyer e =
      .ok { event := { e with sold := e.sold + 1 }, seq := e.sold,
            pays := [{ src := buyer, dst := e.organizer,
                       amount := e.price_lamports }] } := by
  unfold buy_ticket checked_add_u32
  rw [if_pos h1, if_pos h2]

theorem buy_ticket_ok_spec (buyer : Pubkey) (e : Event) (r : TicketSale)
    (h : buy_ticket buyer e = .ok r) :
    e.sold < e.supply ∧ r.event = { e with sold := e.sold + 1 } ∧
    r.seq = e.sold ∧
    r.pays = [{ src := buyer, dst := e.organizer,
                amount := e.price_lamports }] := by
  unfold buy_ticket checked_add_u32 at h
  split_ifs at h with h1 h2 <;> cases h
  exact ⟨h1, rfl, rfl, rfl⟩

theorem buy_ticket_sold_out_iff (buyer : Pubkey) (e : Event) :
    buy_ticket buyer e = .error .SoldOut ↔ e.supply ≤ e.sold := by
  unfold buy_ticket checked_add_u32
  split_ifs with h1 h2 <;> simp <;> omega

theorem event_step_spec (a b : Event) (h : EventStep a b) :
    b.sold = a.sold + 1 ∧ b.supply = a.supply ∧ a.sold < a.supply := by
  cases h with
  | buy buyer e r hr =>
      obtain ⟨hlt, hev, h3, h4⟩ := buy_ticket_ok_spec buyer a r hr
      rw [hev]
      exact ⟨rfl, rfl, hlt⟩

theorem reachable_spec (e0 e : Event) (h0 : e0.sold ≤ e0.supply)
    (hr : Relation.ReflTransGen EventStep e0 e) :
    e.sold ≤ e.supply ∧ e.supply = e0.supply ∧ e0.sold ≤ e.sold := by
  induction hr with
  | refl => exact ⟨h0, rfl, le_rfl⟩
  | tail hs hstep ih =>
      obtain ⟨h1, h2, h3⟩ := ih
      obtain ⟨g1, g2, g3⟩ := event_step_spec _ _ hstep
      exact ⟨by omega, by omega, by omega⟩

theorem buys_succ (buyer : Pubkey) (e : Event) (n : Nat) :
    buys buyer e (n + 1) =
      match buys buyer e n with
      | .ok e' => (buy_ticket buyer e').map TicketSale.event
      | .error err => .error err := rfl

theorem buys_ok_spec (buyer : Pubkey) (e0 : Event) (hsold : e0.sold = 0)
    (hn : e0.supply < U32_MOD) :
    ∀ k, k ≤ e0.supply → buys buyer e0 k = .ok { e0 with sold := k } := by
  intro k hk
  induction k with
  | zero =>
      show Except.ok e0 = _
      cases e0
      simp only [Event.sold] at hsold
      subst hsold
      rfl
  | succ m ih =>
      rw [buys_succ, ih (by omega)]
      show (buy_ticket buyer { e0 with sold := m }).map TicketSale.event = _
      rw [buy_ticket_succeeds buyer { e0 with sold := m }
            (show m < e0.supply by omega)
            (show m + 1 < U32_MOD by omega)]
      rfl

theorem u32_le_bytes_inj (i j : Nat) (hi : i < U32_MOD) (hj : j < U32_MOD)
    (h : u32_le_bytes i = u32_le_bytes j) : i = j := by
  unfold u32_le_bytes at h
  unfold U32_MOD at hi hj
  simp only [List.cons.injEq, and_true] at h
  obtain ⟨h0, h1, h2, h3⟩ := h
  omega

theorem shares_sum_exact (p : Nat) :
    artist_share_of p + seller_share_of p + platform_share_of p = p := by
  simp only [artist_share_of, seller_share_of, platform_share_of]
  omega

theorem buy_resale_ok_spec (s : ResaleState)
    (buyer seller organizer platform : Pubkey) (event : Event)
    (event_key ticket_mint : Pubkey) (s' : ResaleState)
    (trs : List Transfer) (l : Listing) (hl : s.listing = some l)
    (h : buy_resale s buyer seller organizer platform event event_key
           ticket_mint = .ok (s', trs)) :
    seller = l.seller ∧ organizer = event.organizer ∧
    l.event = event_key ∧ l.ticket_mint = ticket_mint ∧
    s.holder = .escrow ∧
    s' = { holder := .wallet buyer, listing := none } ∧
    trs = [{ src := buyer, dst := organizer,
             amount := artist_share_of l.price_lamports },
           { src := buyer, dst := seller,
             amount := seller_share_of l.price_lamports },
           { src := buyer, dst := platform,
             amount := platform_share_of l.price_lamports }] := by
  simp only [buy_resale, hl] at h
  split_ifs at h with h1 h2 h3 h4 <;> cases h
  exact ⟨h1, h2, h3.1, h3.2, h4, rfl, rfl⟩

theorem buy_resale_succeeds (s : ResaleState)
    (buyer seller organizer platform : Pubkey) (event : Event)
    (event_key ticket_mint : Pubkey) (l : Listing)
    (hl : s.listing = some l) (hs : seller = l.seller)
    (ho : organizer = event.organizer) (hev : l.event = event_key)
    (htm : l.ticket_mint = ticket_mint) (hh : s.holder = .escrow) :
    buy_resale s buyer seller organizer platform event event_key
        ticket_mint =
      .ok ({ holder := .wallet buyer, listing := none },
           [{ src := buyer, dst := organizer,
              amount := artist_share_of l.price_lamports },
            { src := buyer, dst := seller,
              amount := seller_share_of l.price_lamports },
            { src := buyer, dst := platform,
              amount := platform_share_of l.price_lamports }]) := by
  simp only [buy_resale, hl]
  rw [if_pos hs, if_pos ho, if_pos ⟨hev, htm⟩, if_pos hh]

theorem buy_resale_not_found (s : ResaleState)
    (buyer seller organizer platform : Pubkey) (event : Event)
    (event_key ticket_mint : Pubkey) (hl : s.listing = none) :
    buy_resale s buyer seller organizer platform event event_key
      ticket_mint = .error .NotFound := by
  simp only [buy_resale, hl]

theorem buy_resale_error_indep (s : ResaleState)
    (buyer seller organizer platform1 platform2 : Pubkey) (event : Event)
    (event_key ticket_mint : Pubkey) (err : TxError) :
    buy_resale s buyer seller organizer platform1 event event_key
        ticket_mint = .error err ↔
    buy_resale s buyer seller organizer platform2 event event_key
        ticket_mint = .error err := by
  cases hls : s.listing with
  | none => simp only [buy_resale, hls]
  | some l =>
      simp only [buy_resale, hls]
      split_ifs <;> simp

theorem list_for_resale_exists (s : ResaleState) (seller : Pubkey)
    (event_key ticket_mint : Pubkey) (price_lamports bump : Nat)
    (l : Listing) (hl : s.listing = some l) :
    list_for_resale s seller event_key ticket_mint price_lamports bump =
      .error .AlreadyExists := by
  simp only [list_for_resale, hl]

theorem list_for_resale_succeeds (s : ResaleState) (seller : Pubkey)
    (event_key ticket_mint : Pubkey) (price_lamports bump : Nat)
    (hl : s.listing = none) (hh : s.holder = .wallet seller)
    (hp : 0 < price_lamports) :
    list_for_resale s seller event_key ticket_mint price_lamports bump =
      .ok { holder := .escrow,
            listing := some { seller := seller, event := event_key,
                              ticket_mint := ticket_mint,
                              price_lamports := price_lamports,
                              bump := bump } } := by
  simp only [list_for_resale, hl]
  rw [if_pos hh, if_pos hp]

theorem cancel_listing_ok_spec (s : ResaleState) (caller : Pubkey)
    (s' : ResaleState) (l : Listing) (hl : s.listing = some l)
    (h : cancel_listing s caller = .ok s') :
    l.seller = caller ∧ s.holder = .escrow ∧
    s' = { holder := .wallet l.seller, listing := none } := by
  simp only [cancel_listing, hl] at h
  split_ifs at h with h1 h2 <;> cases h
  exact ⟨h1, h2, rfl⟩

-- ── Claim theorems ───────────────────────────────────────────────────

/-- Claim C1: every successful `buy_resale` with listing price `p ≥ 1`
computes `artist_share = p * 40 / 100` and `seller_share = p * 40 / 100`
by integer floor division and `platform_share = p - artist_share -
seller_share`, pays exactly those three amounts, and the three shares sum
exactly to `p`; in particular `p = 7` yields shares `(2, 2, 3)` and
`p = 1` yields `(0, 0, 1)`. -/
theorem C1_resale_split_exact (s : ResaleState)
    (buyer seller organizer platform : Pubkey) (event : Event)
    (event_key ticket_mint : Pubkey) (l : Listing) (s' : ResaleState)
    (trs : List Transfer) (hl : s.listing = some l)
    (hp : 1 ≤ l.price_lamports)
    (hok : buy_resale s buyer seller organizer platform event event_key
             ticket_mint = .ok (s', trs)) :
    artist_share_of l.price_lamports = l.price_lamports * 40 / 100 ∧
    seller_share_of l.price_lamports = l.price_lamports * 40 / 100 ∧
    platform_share_of l.price_lamports =
      l.price_lamports - artist_share_of l.price_lamports -
        seller_share_of l.price_lamports ∧
    trs = [{ src := buyer, dst := organizer,
             amount := artist_share_of l.price_lamports },
           { src := buyer, dst := seller,
             amount := seller_share_of l.price_lamports },
           { src := buyer, dst := platform,
             amount := platform_share_of l.price_lamports }] ∧
    artist_share_of l.price_lamports + seller_share_of l.price_lamports +
      platform_share_of l.price_lamports = l.price_lamports ∧
    (artist_share_of 7, seller_share_of 7, platform_share_of 7) =
      (2, 2, 3) ∧
    (artist_share_of 1, seller_share_of 1, platform_share_of 1) =
      (0, 0, 1) := by
  obtain ⟨-, -, -, -, -, -, htrs⟩ :=
    buy_resale_ok_spec s buyer seller organizer platform event event_key
      ticket_mint s' trs l hl hok
  exact ⟨rfl, rfl, rfl, htrs, shares_sum_exact _, by decide, by decide⟩

theorem C1_resale_split_exact_witness :
    artist_share_of 7 = 2 ∧ seller_share_of 7 = 2 ∧
    platform_share_of 7 = 3 ∧
    artist_share_of 7 + seller_share_of 7 + platform_share_of 7 = 7 := by
  have h := C1_resale_split_exact sample_listed 3 2 1 5 sample_event 10 11
    sample_listing { holder := .wallet 3, listing := none }
    [{ src := 3, dst := 1, amount := 2 }, { src := 3, dst := 2, amount := 2 },
     { src := 3, dst := 5, amount := 3 }]
    rfl (by decide) rfl
  exact ⟨rfl, rfl, rfl, h.2.2.2.2.1⟩

/-- Claim C2: for every event record and every sequence of operations, the
invariant `0 ≤ sold ≤ supply` holds at all times, `sold` only ever
increases (by exactly 1 per successful `buy_ticket`, the only instruction
that mutates an event account), and `supply` never changes after
`create_event` sets it. -/
theorem C2_event_invariant (o : Pubkey) (n : Nat) (t v : String) (d : Int)
    (tn : String) (p sup : Nat) (e0 e : Event)
    (hc : create_event o n t v d tn p sup = .ok e0)
    (hr : Relation.ReflTransGen EventStep e0 e) :
    (0 ≤ e.sold ∧ e.sold ≤ e.supply) ∧ e.supply = e0.supply ∧
    e0.sold = 0 ∧ e0.sold ≤ e.sold ∧
    (∀ a b : Event, EventStep a b →
      b.sold = a.sold + 1 ∧ b.supply = a.supply) := by
  obtain ⟨-, hsup, hsold, -⟩ := create_event_ok_spec o n t v d tn p sup e0 hc
  obtain ⟨i1, i2, i3⟩ := reachable_spec e0 e (by omega) hr
  refine ⟨⟨Nat.zero_le _, i1⟩, i2, hsold, i3, ?_⟩
  intro a b hab
  obtain ⟨g1, g2, g3⟩ := event_step_spec a b hab
  exact ⟨g1, g2⟩

theorem C2_event_invariant_witness :
    (0 ≤ sample_event_sold1.sold ∧
      sample_event_sold1.sold ≤ sample_event_sold1.supply) ∧
    sample_event_sold1.supply = sample_event.supply := by
  have h := C2_event_invariant 1 0 "t" "v" 0 "g" 100 2 sample_event
    sample_event_sold1 rfl
    (Relation.ReflTransGen.single
      (EventStep.buy 5 sample_event
        { event := sample_event_sold1, seq := 0,
          pays := [{ src := 5, dst := 1, amount := 100 }] } rfl))
  exact ⟨h.1, h.2.1⟩

/-- Claim C3: `buy_ticket` fails with `SoldOut` iff `event.sold ≥
event.supply` at call time; for an event created with `supply = n`, each
of the first `n` `buy_ticket` calls succeeds (the `(k+1)`-th taking `sold`
from `k` to `k + 1`) and the `(n+1)`-th call fails with `SoldOut`. -/
theorem C3_sold_out (buyer o : Pubkey) (nn : Nat) (t v : String) (d : Int)
    (tn : String) (p n : Nat) (e0 : Event) (hn : n < U32_MOD)
    (hc : create_event o nn t v d tn p n = .ok e0) :
    (∀ e : Event, buy_ticket buyer e = .error .SoldOut ↔
      e.supply ≤ e.sold) ∧
    (∀ k, k < n → buy_ticket buyer { e0 with sold := k } =
      .ok { event := { e0 with sold := k + 1 }, seq := k,
            pays := [{ src := buyer, dst := e0.organizer,
                       amount := e0.price_lamports }] }) ∧
    (∀ k, k ≤ n → buys buyer e0 k = .ok { e0 with sold := k }) ∧
    buys buyer e0 (n + 1) = .error .SoldOut := by
  obtain ⟨-, hsup, hsold, -⟩ := create_event_ok_spec _ _ _ _ _ _ _ _ _ hc
  have hb := buys_ok_spec buyer e0 hsold (by omega)
  refine ⟨fun e => buy_ticket_sold_out_iff buyer e,
          fun k hk => buy_ticket_succeeds buyer { e0 with sold := k }
            (show k < e0.supply by omega) (show k + 1 < U32_MOD by omega),
          fun k hk => hb k (by omega), ?_⟩
  rw [buys_succ, hb n (by omega)]
  show (buy_ticket buyer { e0 with sold := n }).map TicketSale.event = _
  have hso : buy_ticket buyer { e0 with sold := n } = .error .SoldOut := by
    rw [buy_ticket_sold_out_iff]
    show e0.supply ≤ n
    omega
  rw [hso]
  rfl

theorem C3_sold_out_witness :
    buys 5 sample_event 2 = .ok { sample_event with sold := 2 } ∧
    buys 5 sample_event 3 = .error .SoldOut := by
  have h := C3_sold_out 5 1 0 "t" "v" 0 "g" 100 2 sample_event
    (by decide) rfl
  exact ⟨h.2.2.1 2 le_rfl, h.2.2.2⟩

/-- Claim C4: for every event, no two successful `buy_ticket` calls derive
the same ticket-mint identity: the `(i+1)`-th purchase uses sequence
number `i` (the pre-increment value of `sold`), and the mint PDA seeds for
distinct sequence numbers in `0 ≤ seq < supply` are pairwise distinct. -/
theorem C4_mint_uniqueness (buyer o : Pubkey) (nn : Nat) (t v : String)
    (d : Int) (tn : String) (p n : Nat) (e0 : Event) (event_key : Pubkey)
    (i j : Nat) (hn : n < U32_MOD)
    (hc : create_event o nn t v d tn p n = .ok e0)
    (hij : i < j) (hj : j < n) :
    (∃ r : TicketSale, buys buyer e0 i = .ok { e0 with sold := i } ∧
      buy_ticket buyer { e0 with sold := i } = .ok r ∧ r.seq = i) ∧
    (∃ r : TicketSale, buys buyer e0 j = .ok { e0 with sold := j } ∧
      buy_ticket buyer { e0 with sold := j } = .ok r ∧ r.seq = j) ∧
    ticket_mint_seeds event_key i ≠ ticket_mint_seeds event_key j := by
  obtain ⟨-, hsup, hsold, -⟩ := create_event_ok_spec _ _ _ _ _ _ _ _ _ hc
  have hb := buys_ok_spec buyer e0 hsold (by omega)
  refine ⟨⟨_, hb i (by omega),
            buy_ticket_succeeds buyer { e0 with sold := i }
              (show i < e0.supply by omega)
              (show i + 1 < U32_MOD by omega), rfl⟩,
          ⟨_, hb j (by omega),
            buy_ticket_succeeds buyer { e0 with sold := j }
              (show j < e0.supply by omega)
              (show j + 1 < U32_MOD by omega), rfl⟩, ?_⟩
  intro heq
  have hby : u32_le_bytes i = u32_le_bytes j :=
    congrArg (fun q => q.2.2) heq
  have : i = j := u32_le_bytes_inj i j (by omega) (by omega) hby
  omega

theorem C4_mint_uniqueness_witness :
    ticket_mint_seeds 42 0 ≠ ticket_mint_seeds 42 1 := by
  have h := C4_mint_uniqueness 5 1 0 "t" "v" 0 "g" 100 2 sample_event 42
    0 1 (by decide) rfl (by decide) (by decide)
  exact h.2.2

/-- Claim C5: for every ticket mint, at most one listing exists at a time:
`list_for_resale` while a listing is already open fails with
`AlreadyExists` (identity collision on the listing PDA derived from the
ticket mint alone), and after that listing is destroyed by `buy_resale` or
`cancel_listing`, a new `list_for_resale` for the same ticket mint by the
asset's current holder succeeds. -/
theorem C5_one_listing_per_mint (s : ResaleState) (l : Listing)
    (hl : s.listing = some l) :
    (∀ seller event_key ticket_mint price bump,
      list_for_resale s seller event_key ticket_mint price bump =
        .error .AlreadyExists) ∧
    (∀ buyer seller organizer platform event event_key ticket_mint s' trs,
      buy_resale s buyer seller organizer platform event event_key
          ticket_mint = .ok (s', trs) →
      ∀ event_key2 ticket_mint2 price bump, 0 < price →
        list_for_resale s' buyer event_key2 ticket_mint2 price bump =
          .ok { holder := .escrow,
                listing := some { seller := buyer, event := event_key2,
                                  ticket_mint := ticket_mint2,
                                  price_lamports := price,
                                  bump := bump } }) ∧
    (∀ caller s', cancel_listing s caller = .ok s' →
      ∀ event_key2 ticket_mint2 price bump, 0 < price →
        list_for_resale s' l.seller event_key2 ticket_mint2 price bump =
          .ok { holder := .escrow,
                listing := some { seller := l.seller, event := event_key2,
                                  ticket_mint := ticket_mint2,
                                  price_lamports := price,
                                  bump := bump } }) := by
  refine ⟨fun seller ek tm price bump =>
            list_for_resale_exists s seller ek tm price bump l hl,
          ?_, ?_⟩
  · intro buyer seller organizer platform event ek tm s' trs hok
    intro ek2 tm2 price bump hp
    obtain ⟨-, -, -, -, -, hs', -⟩ :=
      buy_resale_ok_spec s buyer seller organizer platform event ek tm
        s' trs l hl hok
    subst hs'
    exact list_for_resale_succeeds _ buyer ek2 tm2 price bump rfl rfl hp
  · intro caller s' hok ek2 tm2 price bump hp
    obtain ⟨-, -, hs'⟩ := cancel_listing_ok_spec s caller s' l hl hok
    subst hs'
    exact list_for_resale_succeeds _ l.seller ek2 tm2 price bump rfl rfl hp

theorem C5_one_listing_per_mint_witness :
    list_for_resale sample_listed 9 10 11 5 0 = .error .AlreadyExists ∧
    list_for_resale { holder := .wallet 2, listing := none } 2 10 11 5 0 =
      .ok { holder := .escrow,
            listing := some { seller := 2, event := 10, ticket_mint := 11,
                              price_lamports := 5, bump := 0 } } := by
  have h := C5_one_listing_per_mint sample_listed sample_listing rfl
  exact ⟨h.1 9 10 11 5 0, h.2.2 2 { holder := .wallet 2, listing := none }
    rfl 10 11 5 0 (by decide)⟩

/-- Counterexample to claim C6 as stated: the claim (following spec §4.2)
says a non-organizer `close_event` call fails with `Unauthorized`, but the
program's `ErrorCode` enum has no `Unauthorized` variant at all — its nine
variants are enumerated below — and the `CloseEvent` account constraint
rejects a non-organizer caller with `InvalidOrganizer` (lib.rs line 492).
Concretely: the sample event's organizer is `1`, and caller `2` gets
`InvalidOrganizer`. -/
theorem C6_close_event_counterexample :
    close_event sample_event 2 = .error (.code .InvalidOrganizer) ∧
    (∀ e : ErrorCode, e = .TitleTooLong ∨ e = .VenueTooLong ∨
      e = .TierNameTooLong ∨ e = .InvalidSupply ∨ e = .SoldOut ∨
      e = .Overflow ∨ e = .InvalidPrice ∨ e = .InvalidSeller ∨
      e = .InvalidOrganizer) := by
  refine ⟨rfl, ?_⟩
  intro e
  cases e <;> simp

/-- Claim C6 (amended): `close_event` fails with `InvalidOrganizer` — the
program's identity-mismatch error; the spec calls this case `Unauthorized`
— unless the caller equals `event.organizer`; when the caller is the
organizer it always succeeds and destroys the event record, regardless of
the value of `sold` (no `sold == 0` check is performed). -/
theorem C6_close_event_auth (e : Event) (caller : Pubkey) :
    (¬ caller = e.organizer →
      close_event e caller = .error (.code .InvalidOrganizer)) ∧
    (caller = e.organizer → close_event e caller = .ok ()) ∧
    (∀ s, close_event { e with sold := s } e.organizer = .ok ()) := by
  unfold close_event
  refine ⟨fun h => ?_, fun h => ?_, fun s => ?_⟩
  · rw [if_neg (fun hh => h hh.symm)]
  · rw [if_pos h.symm]
  · rw [if_pos rfl]

theorem C6_close_event_auth_witness :
    close_event { sample_event with sold := 5 } 1 = .ok () := by
  have h := C6_close_event_auth { sample_event with sold := 5 } 1
  exact h.2.1 rfl

/-- Claim C7: `list_for_resale` with `price_lamports = 0` (the seller
holding the asset and no listing open, so that account validation passes)
fails with `InvalidPrice` before any side effect: the transaction aborts,
so the asset does not move out of the seller's holding and no listing
record is created. -/
theorem C7_zero_price_listing (s : ResaleState)
    (seller event_key ticket_mint : Pubkey) (bump : Nat)
    (hl : s.listing = none) (hh : s.holder = .wallet seller) :
    list_for_resale s seller event_key ticket_mint 0 bump =
      .error (.code .InvalidPrice) ∧
    tx_result s (list_for_resale s seller event_key ticket_mint 0 bump) =
      s := by
  have he : list_for_resale s seller event_key ticket_mint 0 bump =
      .error (.code .InvalidPrice) := by
    simp only [list_for_resale, hl]
    rw [if_pos hh, if_neg (by decide)]
  refine ⟨he, ?_⟩
  rw [he]
  rfl

theorem C7_zero_price_listing_witness :
    list_for_resale { holder := .wallet 2, listing := none } 2 10 11 0 0 =
      .error (.code .InvalidPrice) :=
  (C7_zero_price_listing { holder := .wallet 2, listing := none }
    2 10 11 0 rfl rfl).1

/-- Claim C8: `cancel_listing` fails with `InvalidSeller` unless the
caller equals `listing.seller`; on success it transfers the escrowed
ticket asset back to the seller, closes the escrow custody record, and
destroys the listing, after which a `buy_resale` attempt against that
listing fails with `NotFound`. -/
theorem C8_cancel_listing_spec (s : ResaleState) (l : Listing)
    (hl : s.listing = some l) :
    (∀ caller, ¬ caller = l.seller →
      cancel_listing s caller = .error (.code .InvalidSeller)) ∧
    (s.holder = .escrow →
      cancel_listing s l.seller =
        .ok { holder := .wallet l.seller, listing := none }) ∧
    (∀ s', cancel_listing s l.seller = .ok s' →
      ∀ buyer seller organizer platform event event_key ticket_mint,
        buy_resale s' buyer seller organizer platform event event_key
          ticket_mint = .error .NotFound) := by
  refine ⟨fun caller hc => ?_, fun hh => ?_, fun s' hok => ?_⟩
  · simp only [cancel_listing, hl]
    rw [if_neg (fun hh => hc hh.symm)]
  · simp [cancel_listing, hl, hh]
  · obtain ⟨-, -, hs'⟩ := cancel_listing_ok_spec s l.seller s' l hl hok
    subst hs'
    intro buyer seller organizer platform event ek tm
    exact buy_resale_not_found _ buyer seller organizer platform event
      ek tm rfl

theorem C8_cancel_listing_spec_witness :
    cancel_listing sample_listed 9 = .error (.code .InvalidSeller) ∧
    cancel_listing sample_listed 2 =
      .ok { holder := .wallet 2, listing := none } ∧
    buy_resale { holder := .wallet 2, listing := none } 3 2 1 5
      sample_event 10 11 = .error .NotFound := by
  have h := C8_cancel_listing_spec sample_listed sample_listing rfl
  exact ⟨h.1 9 (by decide), h.2.1 rfl,
         h.2.2 { holder := .wallet 2, listing := none } rfl 3 2 1 5
           sample_event 10 11⟩

/-- Claim C9: under the precondition `event.sold < event.supply` (both
`u32`, so `supply < 2^32`), the checked addition `event.sold + 1` in
`buy_ticket` never overflows, so the `Overflow` error branch of
`buy_ticket` is unreachable. -/
theorem C9_no_overflow (buyer : Pubkey) (e : Event)
    (hw : e.supply < U32_MOD) (hs : e.sold < e.supply) :
    checked_add_u32 e.sold 1 = some (e.sold + 1) ∧
    buy_ticket buyer e =
      .ok { event := { e with sold := e.sold + 1 }, seq := e.sold,
            pays := [{ src := buyer, dst := e.organizer,
                       amount := e.price_lamports }] } ∧
    buy_ticket buyer e ≠ .error .Overflow := by
  have h2 : e.sold + 1 < U32_MOD := by omega
  have hb := buy_ticket_succeeds buyer e hs h2
  refine ⟨?_, hb, ?_⟩
  · unfold checked_add_u32
    rw [if_pos h2]
  · rw [hb]
    simp

theorem C9_no_overflow_witness :
    checked_add_u32 0 1 = some 1 ∧
    buy_ticket 5 sample_event ≠ .error .Overflow := by
  have h := C9_no_overflow 5 sample_event (by decide) (by decide)
  exact ⟨h.1, h.2.2⟩

/-- Claim C10: `buy_resale` performs no validation on the platform
account: the error outcome is identical for every choice of platform
identity (so the organizer and seller identity checks are unaffected), and
whenever the listing, seller, organizer and escrow conditions hold, the
call succeeds for every caller-supplied platform, transferring the
platform share (the 20% remainder) to that account. -/
theorem C10_platform_unvalidated (s : ResaleState)
    (buyer seller organizer : Pubkey) (event : Event)
    (event_key ticket_mint : Pubkey) :
    (∀ platform1 platform2 err,
      buy_resale s buyer seller organizer platform1 event event_key
        ticket_mint = .error err ↔
      buy_resale s buyer seller organizer platform2 event event_key
        ticket_mint = .error err) ∧
    (∀ platform l, s.listing = some l → seller = l.seller →
      organizer = event.organizer → l.event = event_key →
      l.ticket_mint = ticket_mint → s.holder = .escrow →
      buy_resale s buyer seller organizer platform event event_key
        ticket_mint =
        .ok ({ holder := .wallet buyer, listing := none },
             [{ src := buyer, dst := organizer,
                amount := artist_share_of l.price_lamports },
              { src := buyer, dst := seller,
                amount := seller_share_of l.price_lamports },
              { src := buyer, dst := platform,
                amount := platform_share_of l.price_lamports }])) := by
  refine ⟨fun p1 p2 err =>
            buy_resale_error_indep s buyer seller organizer p1 p2 event
              event_key ticket_mint err,
          fun platform l hl hs ho hev htm hh =>
            buy_resale_succeeds s buyer seller organizer platform event
              event_key ticket_mint l hl hs ho hev htm hh⟩

theorem C10_platform_unvalidated_witness :
    buy_resale sample_listed 3 2 1 99 sample_event 10 11 =
      .ok ({ holder := .wallet 3, listing := none },
           [{ src := 3, dst := 1, amount := 2 },
            { src := 3, dst := 2, amount := 2 },
            { src := 3, dst := 99, amount := 3 }]) ∧
    (buy_resale sample_listed 3 9 1 55 sample_event 10 11 =
        .error (.code .InvalidSeller) ↔
     buy_resale sample_listed 3 9 1 66 sample_event 10 11 =
        .error (.code .InvalidSeller)) := by
  have h := C10_platform_unvalidated sample_listed 3 2 1 sample_event 10 11
  have h2 := C10_platform_unvalidated sample_listed 3 9 1 sample_event 10 11
  exact ⟨h.2 99 sample_listing rfl rfl rfl rfl rfl rfl,
         h2.1 55 66 (.code .InvalidSeller)⟩
